import Mathlib

/-!
Shallow embedding of the menu-kit core (src/menu_kit/core/runner.py,
src/menu_kit/core/config.py, src/menu_kit/plugins/builtin/plugins.py) and
proofs about the Runner state machine, exit codes, scripted selection
chains, the interactive loop, print-mode formatting, configuration
defaults and the plugin-options menu.

External collaborators (the menu backend, the item database, the plugin
loader) are modelled as function parameters with the interfaces the Runner
uses; the Runner's own control flow is translated line by line from
runner.py.
-/

namespace MenuKit

/-! ### Exit codes (runner.py lines 18-25) -/

def EXIT_SUCCESS : Nat := 0
def EXIT_CANCELLED : Nat := 1
def EXIT_SELECTION_NOT_FOUND : Nat := 2
def EXIT_PLUGIN_NOT_FOUND : Nat := 3
def EXIT_EXECUTION_FAILED : Nat := 4
def EXIT_CONFIG_ERROR : Nat := 5
def EXIT_NO_BACKEND : Nat := 6

/-! ### Data model (core/database.py MenuItem, as used by runner.py and
plugins.py: fields id, title, item_type, badge, plugin; `badge` and
`plugin` are optional strings in the source and are tested for Python
truthiness (`if item.badge:`, `if item.plugin:`), so here the empty string
stands for "absent"). -/

inductive ItemType where
  | submenu
  | action
  | info
  deriving DecidableEq, Repr

structure MenuItem where
  id : String
  title : String
  itemType : ItemType
  badge : String
  plugin : String
  deriving DecidableEq, Repr

/-! ### Action extraction (runner.py lines 160-163 and 210-212; the same
two lines of Python appear verbatim in `_run_selections` and `_run_menu`:
`action = ""` then `if ":" in item.id: _, action = item.id.split(":", 1)`.
`str.split(":", 1)` splits at the first colon only, so the action is the
entire remainder of the id after the first colon.) -/

/-- Characters after the first `':'`, or `none` when there is no colon. -/
def afterColon : List Char → Option (List Char)
  | [] => none
  | c :: cs => if c = ':' then some cs else afterColon cs

/-- The action the Runner extracts from an item id: the substring after
the first colon, or `""` when the id has no colon. -/
def extractAction (id : String) : String :=
  match afterColon id.data with
  | some cs => String.mk cs
  | none => ""

/-! ### Scripted chain, `Runner._run_selections` (runner.py lines 138-166).
The database is the external collaborator `find` (modelling
`database.find_item_by_title(selection, prefix)` with the configured
submenu prefix already applied); `rp` models `loader.run_plugin`, whose
boolean result the source discards (line 164 is a bare statement). The
trace fields record, in order, the selections passed to `find`, the
`run_plugin` calls made, and the discarded `run_plugin` results. -/

structure SelResult where
  exitCode : Nat
  resolved : List String
  calls : List (String × String)
  results : List Bool
  deriving DecidableEq, Repr

def runSelections (find : String → Option MenuItem) (rp : String → String → Bool)
    (dryRun : Bool) : List String → SelResult
  | [] => ⟨EXIT_SUCCESS, [], [], []⟩
  | s :: rest =>
    match find s with
    | none => ⟨EXIT_SELECTION_NOT_FOUND, [s], [], []⟩
    | some item =>
      if dryRun then
        let r := runSelections find rp dryRun rest
        ⟨r.exitCode, s :: r.resolved, r.calls, r.results⟩
      else if item.plugin ≠ "" then
        let r := runSelections find rp dryRun rest
        ⟨r.exitCode, s :: r.resolved,
          (item.plugin, extractAction item.id) :: r.calls,
          rp item.plugin (extractAction item.id) :: r.results⟩
      else
        let r := runSelections find rp dryRun rest
        ⟨r.exitCode, s :: r.resolved, r.calls, r.results⟩

/-! ### Interactive loop, `Runner._run_menu` (runner.py lines 182-213).
The backend (external collaborator, menu/base.py) returns a `MenuResult`
with fields `cancelled` and `selected`; the database's ranked item list
and the backend's answer at each pass of the loop are modelled as the
functions `getItems` and `backendShow` of the iteration counter `k` (the
source's loop is unbounded, so the embedding takes fuel; `exitCode = none`
means the fuel ran out before the loop terminated). `recorded` collects
the `record_use` calls, `calls` the `run_plugin` calls. The source's
single test `if result.cancelled or result.selected is None` is split into
the cancelled test and the `match` on `selected`. -/

structure MenuResult where
  cancelled : Bool
  selected : Option MenuItem
  deriving DecidableEq, Repr

structure MenuRun where
  exitCode : Option Nat
  recorded : List String
  calls : List (String × String)
  deriving DecidableEq, Repr

def runMenu (getItems : Nat → List MenuItem)
    (backendShow : Nat → List MenuItem → MenuResult)
    (freqTracking : Bool) : Nat → Nat → MenuRun
  | 0, _ => ⟨none, [], []⟩
  | fuel + 1, k =>
    let items := getItems k
    if items = [] then ⟨some EXIT_CANCELLED, [], []⟩
    else
      let res := backendShow k items
      if res.cancelled = true then ⟨some EXIT_CANCELLED, [], []⟩
      else
        match res.selected with
        | none => ⟨some EXIT_CANCELLED, [], []⟩
        | some item =>
          let r := runMenu getItems backendShow freqTracking fuel (k + 1)
          ⟨r.exitCode,
            (if freqTracking then [item.id] else []) ++ r.recorded,
            (if item.plugin ≠ "" then [(item.plugin, extractAction item.id)]
              else []) ++ r.calls⟩

/-! ### Print mode, `Runner._print_items` and `Runner._format_item`
(runner.py lines 168-180 and 215-224). The frequency-ranked item list
fetched from the database is the input; the output is the list of printed
lines in order, paired with the exit code. -/

def formatItem (item : MenuItem) (submenuPrefix : String) : String :=
  let d1 := item.title
  let d2 := if item.itemType = ItemType.submenu then submenuPrefix ++ d1 else d1
  if item.badge ≠ "" then d2 ++ "  (" ++ item.badge ++ ")" else d2

def printItemsMode (items : List MenuItem) (submenuPrefix : String) :
    List String × Nat :=
  (items.map (fun it => formatItem it submenuPrefix), EXIT_SUCCESS)

/-! ### Configuration, `Config` and `Config.load` (core/config.py lines
29-91). `Config.load` resolves the path, returns the dataclass defaults
(`cls()`) when the file does not exist, and otherwise parses the TOML file
(tomllib, external) and builds a `Config` with `from_dict`; the
exists-branch's parse outcome is abstracted as the `parsed` argument
(tomllib may raise, modelled by `Except.error`). -/

structure MenuBackendConfig where
  args : List String
  deriving DecidableEq, Repr

structure MenuConfig where
  backend : String
  rofi : MenuBackendConfig
  fuzzel : MenuBackendConfig
  dmenu : MenuBackendConfig
  fzf : MenuBackendConfig
  deriving DecidableEq, Repr

structure DisplayConfig where
  submenuPrefix : String
  infoPrefix : String
  headerPrefix : String
  separator : String
  showInfoItems : Bool
  showHeaders : Bool
  showSeparators : Bool
  deriving DecidableEq, Repr

structure PluginsConfig where
  repositories : List String
  allowUnverified : Bool
  deriving DecidableEq, Repr

structure Config where
  menu : MenuConfig
  display : DisplayConfig
  plugins : PluginsConfig
  frequencyTracking : Bool
  deriving DecidableEq, Repr

/-- The dataclass defaults of config.py: `backend=""` (auto-detect), empty
backend argument lists, `submenu_prefix="→ "`, `separator="─" * 40`,
repositories defaulting to the official repository, and
`frequency_tracking=True`. -/
def defaultConfig : Config :=
  { menu := ⟨"", ⟨[]⟩, ⟨[]⟩, ⟨[]⟩, ⟨[]⟩⟩
    display := ⟨"→ ", "", "", String.mk (List.replicate 40 '─'), true, true, true⟩
    plugins := ⟨["markhedleyjones/menu-kit-plugins"], false⟩
    frequencyTracking := true }

inductive TomlError where
  | parseError
  deriving DecidableEq, Repr

def configLoad (pathExists : Bool) (parsed : Except TomlError Config) :
    Except TomlError Config :=
  if pathExists = false then Except.ok defaultConfig else parsed

/-! ### Setup and mode dispatch, `Runner.setup` and `Runner.run`
(runner.py lines 52-113). `Config.load()` and `Database()` are called
without a surrounding try/except, so a failure in either propagates as an
exception out of `setup` (modelled as `Except.error`); `get_backend`
returning `None` makes `setup` return `EXIT_NO_BACKEND`. `load_all` and
`index_all` isolate per-plugin errors (spec §4.3) and do not fail setup.
`run` returns `setup`'s code unchanged when it is non-zero and otherwise
dispatches on the options in source order: rebuild, plugin, selections,
print, interactive menu. Python truthiness: `options.plugin` is falsy when
`None` or `""`, `options.selections` when `None` or `[]`. -/

structure SetupEnv where
  configLoadOk : Bool
  dbOpenOk : Bool
  backendAvailable : Bool
  deriving DecidableEq, Repr

inductive SetupExn where
  | configLoadError
  | dbOpenError
  deriving DecidableEq, Repr

def setup (env : SetupEnv) : Except SetupExn Nat :=
  if env.configLoadOk = false then Except.error SetupExn.configLoadError
  else if env.dbOpenOk = false then Except.error SetupExn.dbOpenError
  else if env.backendAvailable = false then Except.ok EXIT_NO_BACKEND
  else Except.ok EXIT_SUCCESS

inductive Mode where
  | rebuild
  | directPlugin
  | scriptedChain
  | printMode
  | interactiveLoop
  deriving DecidableEq, Repr

structure RunnerOptions where
  plugin : String
  selections : List String
  printFlag : Bool
  rebuildFlag : Bool
  dryRun : Bool
  deriving DecidableEq, Repr

def modeOf (o : RunnerOptions) : Mode :=
  if o.rebuildFlag then Mode.rebuild
  else if o.plugin ≠ "" then Mode.directPlugin
  else if o.selections ≠ [] then Mode.scriptedChain
  else if o.printFlag then Mode.printMode
  else Mode.interactiveLoop

/-- `Runner.run`: a failed setup's code (or exception) passes through with
no mode entered (`Sum.inl`); a successful setup enters exactly one mode
(`Sum.inr`). -/
def runDispatch (env : SetupEnv) (o : RunnerOptions) :
    Except SetupExn (Nat ⊕ Mode) :=
  match setup env with
  | Except.error e => Except.error e
  | Except.ok c =>
      if c ≠ EXIT_SUCCESS then Except.ok (Sum.inl c)
      else Except.ok (Sum.inr (modeOf o))

/-- Modelled from the spec: the process entry point that invokes
`Runner.run` and turns its outcome into the process exit status is not
under src (cli.py's `main` is a stub that never constructs a Runner). Per
spec §4.4/§7, SETUP is terminal-failing — a configuration failure maps to
the configuration-error exit code and no mode is entered; an exception
escaping setup (config unreadable, database unopenable) is a SetupError.
`modeRun` abstracts the exit code of whichever mode runs. The result pairs
the process exit code with the mode entered, if any. -/
def processExit (modeRun : Mode → Nat) (env : SetupEnv) (o : RunnerOptions) :
    Nat × Option Mode :=
  match runDispatch env o with
  | Except.error _ => (EXIT_CONFIG_ERROR, none)
  | Except.ok (Sum.inl c) => (c, none)
  | Except.ok (Sum.inr m) => (modeRun m, some m)

/-! ### The Runner's exit-returning branches. One constructor per `return`
statement of a Runner method that produces an exit code (runner.py; the
pass-through `return setup_code` at line 87 returns another branch's code
and is not a producing branch). -/

inductive ExitBranch where
  | setupNoBackend      -- line 72
  | setupOk             -- line 81
  | runRebuild          -- line 98
  | runPluginDryRun     -- line 130
  | runPluginNotFound   -- line 134
  | runPluginOk         -- line 136
  | selectionsNotFound  -- line 152
  | selectionsDone      -- line 166
  | printDone           -- line 180
  | menuEmpty           -- line 194
  | menuCancelled       -- line 200
  deriving DecidableEq, Repr

def branchCode : ExitBranch → Nat
  | ExitBranch.setupNoBackend => EXIT_NO_BACKEND
  | ExitBranch.setupOk => EXIT_SUCCESS
  | ExitBranch.runRebuild => EXIT_SUCCESS
  | ExitBranch.runPluginDryRun => EXIT_SUCCESS
  | ExitBranch.runPluginNotFound => EXIT_PLUGIN_NOT_FOUND
  | ExitBranch.runPluginOk => EXIT_SUCCESS
  | ExitBranch.selectionsNotFound => EXIT_SELECTION_NOT_FOUND
  | ExitBranch.selectionsDone => EXIT_SUCCESS
  | ExitBranch.printDone => EXIT_SUCCESS
  | ExitBranch.menuEmpty => EXIT_CANCELLED
  | ExitBranch.menuCancelled => EXIT_CANCELLED

def allBranches : List ExitBranch :=
  [ExitBranch.setupNoBackend, ExitBranch.setupOk, ExitBranch.runRebuild,
   ExitBranch.runPluginDryRun, ExitBranch.runPluginNotFound,
   ExitBranch.runPluginOk, ExitBranch.selectionsNotFound,
   ExitBranch.selectionsDone, ExitBranch.printDone, ExitBranch.menuEmpty,
   ExitBranch.menuCancelled]

/-- The branches returning a given exit code. -/
def branchesReturning (c : Nat) : List ExitBranch :=
  allBranches.filter (fun b => branchCode b == c)

/-! ### Plugin-options menu, `PluginsPlugin._show_plugin_options`
(plugins/builtin/plugins.py lines 100-163): the item list it offers for a
plugin. The bundled set is the literal `{"settings", "plugins"}` at line
139; the Uninstall entry is appended only when the plugin name is not in
that set (lines 140-147). `DisplayMode` is the two-valued enum of
core/display_mode.py (spec §3: {INLINE, SUBMENU}). -/

inductive DisplayMode where
  | inlineMode
  | submenuMode
  deriving DecidableEq, Repr

def bundledPlugins : List String := ["settings", "plugins"]

def pluginOptionItems (pluginName : String) (infoVersion : String)
    (currentMode : DisplayMode) : List MenuItem :=
  let toggleLabel :=
    if currentMode = DisplayMode.inlineMode then "Change to Submenu"
    else "Change to Inline"
  let toggleBadge :=
    if currentMode = DisplayMode.inlineMode then "currently inline"
    else "currently submenu"
  let base : List MenuItem :=
    [⟨"plugins:opt:" ++ pluginName ++ ":info", "Info", ItemType.info,
        "v" ++ infoVersion, ""⟩,
     ⟨"plugins:opt:" ++ pluginName ++ ":toggle", toggleLabel, ItemType.action,
        toggleBadge, ""⟩]
  if pluginName ∉ bundledPlugins then
    base ++ [⟨"plugins:opt:" ++ pluginName ++ ":uninstall", "Uninstall",
        ItemType.action, "", ""⟩]
  else base

/-! ### Uninstall. -/

inductive PathKind where
  | symlink
  | realDir
  deriving DecidableEq, Repr

inductive FsOp where
  | removeSymlink (name : String)
  | removeTree (name : String)
  deriving DecidableEq, Repr

inductive UninstallOutcome where
  | refusedBundled
  | notFound
  | removed
  deriving DecidableEq, Repr

/-- Modelled from the spec: the uninstall operation
(`PluginsPlugin._uninstall_plugin`, exercised by
tests/test_plugin_repository.py) is not under src — the plugins.py under
src stubs the uninstall handler with a notification. Per the spec's
uninstall protocol (§4.3): it refuses any name in the bundled set by
returning failure (no exception); for a symlinked install it removes only
the symlink; for a real directory it removes the tree recursively; it
fails when no such installed plugin exists. `fs` gives the kind of the
installed path, `none` when nothing is installed under the name; the
returned list is the sequence of filesystem mutations performed. -/
def uninstallPlugin (fs : String → Option PathKind) (name : String) :
    UninstallOutcome × List FsOp :=
  if name ∈ bundledPlugins then (UninstallOutcome.refusedBundled, [])
  else
    match fs name with
    | none => (UninstallOutcome.notFound, [])
    | some PathKind.symlink =>
        (UninstallOutcome.removed, [FsOp.removeSymlink name])
    | some PathKind.realDir =>
        (UninstallOutcome.removed, [FsOp.removeTree name])

/-! ### Helper lemmas about the scripted chain. -/

/-- Unfolding of `runSelections` on a resolved head selection: the head is
consed onto the resolved list, the exit code is the tail chain's, and the
call trace grows only in the executing branch. -/
theorem runSelections_cons_some (find : String → Option MenuItem)
    (rp : String → String → Bool) (dry : Bool) (s : String) (item : MenuItem)
    (rest : List String) (hfind : find s = some item) :
    runSelections find rp dry (s :: rest) =
      (let r := runSelections find rp dry rest
       if dry then ⟨r.exitCode, s :: r.resolved, r.calls, r.results⟩
       else if item.plugin ≠ "" then
         ⟨r.exitCode, s :: r.resolved,
           (item.plugin, extractAction item.id) :: r.calls,
           rp item.plugin (extractAction item.id) :: r.results⟩
       else ⟨r.exitCode, s :: r.resolved, r.calls, r.results⟩) := by
  simp only [runSelections, hfind]

/-- If every selection of a chain resolves, the chain's exit code is
`EXIT_SUCCESS`. -/
theorem runSelections_all_resolved_exit (find : String → Option MenuItem)
    (rp : String → String → Bool) (dry : Bool) :
    ∀ sels : List String, (∀ s ∈ sels, (find s).isSome = true) →
      (runSelections find rp dry sels).exitCode = EXIT_SUCCESS := by
  intro sels
  induction sels with
  | nil => intro _; rfl
  | cons s rest ih =>
    intro h
    obtain ⟨item, hitem⟩ := Option.isSome_iff_exists.mp (h s (by simp))
    have ih' := ih fun t ht => h t (by simp [ht])
    rw [runSelections_cons_some find rp dry s item rest hitem]
    by_cases hd : dry
    · simpa [hd] using ih'
    · by_cases hp : item.plugin = ""
      · simpa [hd, hp] using ih'
      · simpa [hd, hp] using ih'

/-- A scripted chain's exit code is always `EXIT_SUCCESS` or
`EXIT_SELECTION_NOT_FOUND`, whatever the store and the plugin results. -/
theorem runSelections_exit_cases (find : String → Option MenuItem)
    (rp : String → String → Bool) (dry : Bool) :
    ∀ sels : List String,
      (runSelections find rp dry sels).exitCode = EXIT_SUCCESS ∨
      (runSelections find rp dry sels).exitCode = EXIT_SELECTION_NOT_FOUND := by
  intro sels
  induction sels with
  | nil => exact Or.inl rfl
  | cons s rest ih =>
    match hitem : find s with
    | none => exact Or.inr (by simp [runSelections, hitem])
    | some item =>
      rw [runSelections_cons_some find rp dry s item rest hitem]
      by_cases hd : dry
      · simpa [hd] using ih
      · by_cases hp : item.plugin = ""
        · simpa [hd, hp] using ih
        · simpa [hd, hp] using ih

/-- C1: in SCRIPTED_CHAIN mode the selections are resolved in order via
`find_item_by_title`; the first selection that resolves to no item aborts
the whole chain with exit code `EXIT_SELECTION_NOT_FOUND` (2), and no
later selection is resolved (the resolved trace ends at the miss) or
executed. -/
theorem C1_scripted_chain_fail_fast (find : String → Option MenuItem)
    (rp : String → String → Bool) (dry : Bool) (pre : List String)
    (miss : String) (post : List String)
    (hpre : ∀ s ∈ pre, (find s).isSome = true) (hmiss : find miss = none) :
    (runSelections find rp dry (pre ++ miss :: post)).exitCode =
        EXIT_SELECTION_NOT_FOUND ∧
    (runSelections find rp dry (pre ++ miss :: post)).resolved = pre ++ [miss] ∧
    (runSelections find rp dry (pre ++ miss :: post)).calls =
        (runSelections find rp dry pre).calls := by
  induction pre with
  | nil => simp [runSelections, hmiss]
  | cons s pre ih =>
    obtain ⟨item, hitem⟩ := Option.isSome_iff_exists.mp (hpre s (by simp))
    have ih' := ih fun t ht => hpre t (by simp [ht])
    rw [List.cons_append,
      runSelections_cons_some find rp dry s item (pre ++ miss :: post) hitem,
      runSelections_cons_some find rp dry s item pre hitem]
    cases dry with
    | true => simp [ih'.1, ih'.2.1, ih'.2.2]
    | false =>
      by_cases hp : item.plugin = ""
      · simp [hp, ih'.1, ih'.2.1, ih'.2.2]
      · simp [hp, ih'.1, ih'.2.1, ih'.2.2]

/-! Concrete store used by the witnesses: two indexed items titled
"Files" and "Documents", as in the spec's fail-fast example. -/

def demoFilesItem : MenuItem :=
  ⟨"files", "Files", ItemType.submenu, "", "files"⟩

def demoDocsItem : MenuItem :=
  ⟨"files:documents", "Documents", ItemType.action, "", "files"⟩

def demoFind : String → Option MenuItem := fun s =>
  if s = "Files" then some demoFilesItem
  else if s = "Documents" then some demoDocsItem
  else none

def demoRp : String → String → Bool := fun _ _ => true

/-- Witness for C1: the chain `["Files", "Nonexistent", "Documents"]`
stops at the miss with exit code 2 and never resolves "Documents". -/
theorem C1_scripted_chain_fail_fast_witness :
    (∀ s ∈ ["Files"], (demoFind s).isSome = true) ∧
    demoFind "Nonexistent" = none ∧
    ((runSelections demoFind demoRp false
        (["Files"] ++ "Nonexistent" :: ["Documents"])).exitCode =
          EXIT_SELECTION_NOT_FOUND ∧
     (runSelections demoFind demoRp false
        (["Files"] ++ "Nonexistent" :: ["Documents"])).resolved =
          ["Files"] ++ ["Nonexistent"] ∧
     (runSelections demoFind demoRp false
        (["Files"] ++ "Nonexistent" :: ["Documents"])).calls =
          (runSelections demoFind demoRp false ["Files"]).calls) :=
  ⟨by decide, by decide,
    C1_scripted_chain_fail_fast demoFind demoRp false ["Files"] "Nonexistent"
      ["Documents"] (by decide) (by decide)⟩

/-- C7: in SCRIPTED_CHAIN mode a resolved selection under the dry-run
flag, and a resolved selection whose item has no owning plugin, are both
skipped without calling `run_plugin` (the call and result traces are the
tail chain's, unchanged) and the chain continues; if every remaining
selection also resolves the chain still ends with `EXIT_SUCCESS`. -/
theorem C7_dry_run_and_inert_items (find : String → Option MenuItem)
    (rp : String → String → Bool) (dry : Bool) (s : String) (item : MenuItem)
    (rest : List String) (hfind : find s = some item)
    (h : dry = true ∨ item.plugin = "") :
    (runSelections find rp dry (s :: rest)).calls =
        (runSelections find rp dry rest).calls ∧
    (runSelections find rp dry (s :: rest)).results =
        (runSelections find rp dry rest).results ∧
    (runSelections find rp dry (s :: rest)).exitCode =
        (runSelections find rp dry rest).exitCode ∧
    ((∀ t ∈ rest, (find t).isSome = true) →
      (runSelections find rp dry (s :: rest)).exitCode = EXIT_SUCCESS) := by
  rw [runSelections_cons_some find rp dry s item rest hfind]
  rcases h with hd | hp
  · subst hd
    refine ⟨rfl, rfl, rfl, ?_⟩
    intro hall
    exact runSelections_all_resolved_exit find rp true rest hall
  · cases dry with
    | true =>
      refine ⟨rfl, rfl, rfl, ?_⟩
      intro hall
      exact runSelections_all_resolved_exit find rp true rest hall
    | false =>
      simp only [hp, ne_eq, not_true_eq_false, if_false, Bool.false_eq_true,
        ite_false]
      refine ⟨trivial, trivial, trivial, ?_⟩
      intro hall
      exact runSelections_all_resolved_exit find rp false rest hall

/-- Witness for C7: the dry-run chain `["Files", "Documents"]` makes no
`run_plugin` call on its head and ends with `EXIT_SUCCESS`. -/
theorem C7_dry_run_and_inert_items_witness :
    demoFind "Files" = some demoFilesItem ∧
    (true = true ∨ demoFilesItem.plugin = "") ∧
    ((runSelections demoFind demoRp true ["Files", "Documents"]).calls =
        (runSelections demoFind demoRp true ["Documents"]).calls ∧
     (runSelections demoFind demoRp true ["Files", "Documents"]).results =
        (runSelections demoFind demoRp true ["Documents"]).results ∧
     (runSelections demoFind demoRp true ["Files", "Documents"]).exitCode =
        (runSelections demoFind demoRp true ["Documents"]).exitCode ∧
     ((∀ t ∈ ["Documents"], (demoFind t).isSome = true) →
       (runSelections demoFind demoRp true ["Files", "Documents"]).exitCode =
         EXIT_SUCCESS)) :=
  ⟨by decide, Or.inl rfl,
    C7_dry_run_and_inert_items demoFind demoRp true "Files" demoFilesItem
      ["Documents"] (by decide) (Or.inl rfl)⟩

/-- C10: a scripted chain in which every selection resolves returns
`EXIT_SUCCESS` (0) whatever `run_plugin` returns (the boolean results are
discarded), and a scripted chain never produces any exit code other than
`EXIT_SUCCESS` or `EXIT_SELECTION_NOT_FOUND` — in particular never
`EXIT_PLUGIN_NOT_FOUND` or `EXIT_EXECUTION_FAILED`. -/
theorem C10_chain_discards_run_plugin_result (find : String → Option MenuItem)
    (rp : String → String → Bool) (dry : Bool) (sels : List String) :
    ((∀ s ∈ sels, (find s).isSome = true) →
      (runSelections find rp dry sels).exitCode = EXIT_SUCCESS) ∧
    ((runSelections find rp dry sels).exitCode ≠ EXIT_PLUGIN_NOT_FOUND ∧
     (runSelections find rp dry sels).exitCode ≠ EXIT_EXECUTION_FAILED) := by
  refine ⟨runSelections_all_resolved_exit find rp dry sels, ?_, ?_⟩
  · rcases runSelections_exit_cases find rp dry sels with h | h <;>
      simp [h, EXIT_SUCCESS, EXIT_SELECTION_NOT_FOUND, EXIT_PLUGIN_NOT_FOUND]
  · rcases runSelections_exit_cases find rp dry sels with h | h <;>
      simp [h, EXIT_SUCCESS, EXIT_SELECTION_NOT_FOUND, EXIT_EXECUTION_FAILED]

/-- Witness for C10: the fully-resolving chain `["Files", "Documents"]`
exits with 0 under a `run_plugin` oracle that always fails. -/
theorem C10_chain_discards_run_plugin_result_witness :
    (∀ s ∈ ["Files", "Documents"], (demoFind s).isSome = true) ∧
    (runSelections demoFind (fun _ _ => false) false
        ["Files", "Documents"]).exitCode = EXIT_SUCCESS :=
  ⟨by decide,
    (C10_chain_discards_run_plugin_result demoFind (fun _ _ => false) false
      ["Files", "Documents"]).1 (by decide)⟩

/-! ### Helper lemmas about `afterColon`. -/

theorem afterColon_no_colon : ∀ cs : List Char, ':' ∉ cs → afterColon cs = none := by
  intro cs
  induction cs with
  | nil => intro _; rfl
  | cons c cs ih =>
    intro h
    have hc : ¬c = ':' := fun hc => h (by simp [hc])
    simp only [afterColon, if_neg hc]
    exact ih fun hmem => h (by simp [hmem])

theorem afterColon_append (ds : List Char) :
    ∀ cs : List Char, ':' ∉ cs → afterColon (cs ++ ':' :: ds) = some ds := by
  intro cs
  induction cs with
  | nil => intro _; simp [afterColon]
  | cons c cs ih =>
    intro h
    have hc : ¬c = ':' := fun hc => h (by simp [hc])
    simp only [List.cons_append, afterColon, if_neg hc]
    exact ih fun hmem => h (by simp [hmem])

/-- C3: the action passed to `run_plugin` is exactly the substring of the
item's id after the first colon (an action containing colons keeps them),
and the empty string for an id with no colon; the executing branches of
SCRIPTED_CHAIN and INTERACTIVE_LOOP both pass `(item.plugin,
extractAction item.id)` to `run_plugin`. -/
theorem C3_action_after_first_colon :
    (∀ a b : String, ':' ∉ a.data → extractAction (a ++ ":" ++ b) = b) ∧
    (∀ id : String, ':' ∉ id.data → extractAction id = "") ∧
    (∀ (find : String → Option MenuItem) (rp : String → String → Bool)
        (s : String) (item : MenuItem) (rest : List String),
      find s = some item → item.plugin ≠ "" →
      (runSelections find rp false (s :: rest)).calls.head? =
        some (item.plugin, extractAction item.id)) ∧
    (∀ (getItems : Nat → List MenuItem)
        (backendShow : Nat → List MenuItem → MenuResult) (ft : Bool)
        (fuel k : Nat) (item : MenuItem),
      getItems k ≠ [] → backendShow k (getItems k) = ⟨false, some item⟩ →
      item.plugin ≠ "" →
      (runMenu getItems backendShow ft (fuel + 1) k).calls.head? =
        some (item.plugin, extractAction item.id)) := by
  refine ⟨?_, ?_, ?_, ?_⟩
  · intro a b ha
    have hdata : (a ++ ":" ++ b).data = a.data ++ ':' :: b.data := by
      simp [String.data_append]
    unfold extractAction
    rw [hdata, afterColon_append b.data a.data ha]
  · intro id hid
    unfold extractAction
    rw [afterColon_no_colon id.data hid]
  · intro find rp s item rest hfind hp
    rw [runSelections_cons_some find rp false s item rest hfind]
    simp [hp]
  · intro getItems backendShow ft fuel k item hne hshow hp
    simp only [runMenu, if_neg hne, hshow]
    simp [hp]

/-- Witness for C3: the id `"files:recent:txt"` yields the action
`"recent:txt"` — the second colon stays part of the action — a colon-free
id yields `""`, and a concrete scripted chain passes exactly that pair to
`run_plugin`. -/
theorem C3_action_after_first_colon_witness :
    extractAction ("files" ++ ":" ++ "recent:txt") = "recent:txt" ∧
    extractAction "files" = "" ∧
    (runSelections demoFind demoRp false ["Documents"]).calls.head? =
      some (demoDocsItem.plugin, extractAction demoDocsItem.id) :=
  ⟨(C3_action_after_first_colon.1 "files" "recent:txt" (by decide)),
   (C3_action_after_first_colon.2.1 "files" (by decide)),
   (C3_action_after_first_colon.2.2.1 demoFind demoRp "Documents" demoDocsItem
      [] (by decide) (by decide))⟩

/-- C2: the interactive loop terminates with `EXIT_CANCELLED` (1), with no
`record_use` call and no `run_plugin` call, when the ranked item list is
empty, when the backend result is marked cancelled, and when the backend
result carries no selected item. -/
theorem C2_interactive_loop_cancelled (getItems : Nat → List MenuItem)
    (backendShow : Nat → List MenuItem → MenuResult) (ft : Bool)
    (fuel k : Nat) :
    (getItems k = [] →
      runMenu getItems backendShow ft (fuel + 1) k =
        ⟨some EXIT_CANCELLED, [], []⟩) ∧
    (getItems k ≠ [] → (backendShow k (getItems k)).cancelled = true →
      runMenu getItems backendShow ft (fuel + 1) k =
        ⟨some EXIT_CANCELLED, [], []⟩) ∧
    (getItems k ≠ [] → (backendShow k (getItems k)).selected = none →
      runMenu getItems backendShow ft (fuel + 1) k =
        ⟨some EXIT_CANCELLED, [], []⟩) := by
  refine ⟨?_, ?_, ?_⟩
  · intro h
    simp [runMenu, h]
  · intro hne hc
    simp [runMenu, if_neg hne, hc]
  · intro hne hsel
    by_cases hc : (backendShow k (getItems k)).cancelled = true
    · simp [runMenu, if_neg hne, hc]
    · simp [runMenu, if_neg hne, hc, hsel]

/-- Witness for C2: an empty store cancels at once with nothing recorded,
and a backend that cancels on a nonempty store cancels too. -/
theorem C2_interactive_loop_cancelled_witness :
    ((fun _ : Nat => ([] : List MenuItem)) 0 = [] ∧
      runMenu (fun _ => []) (fun _ _ => ⟨true, none⟩) true 1 0 =
        ⟨some EXIT_CANCELLED, [], []⟩) ∧
    ((fun _ : Nat => [demoFilesItem]) 0 ≠ [] ∧
      ((fun _ : Nat => fun _ : List MenuItem => (⟨true, none⟩ : MenuResult)) 0
        [demoFilesItem]).cancelled = true ∧
      runMenu (fun _ => [demoFilesItem]) (fun _ _ => ⟨true, none⟩) true 1 0 =
        ⟨some EXIT_CANCELLED, [], []⟩) :=
  ⟨⟨rfl, (C2_interactive_loop_cancelled (fun _ => [])
      (fun _ _ => ⟨true, none⟩) true 0 0).1 rfl⟩,
   ⟨by decide, rfl,
    (C2_interactive_loop_cancelled (fun _ => [demoFilesItem])
      (fun _ _ => ⟨true, none⟩) true 0 0).2.1 (by decide) rfl⟩⟩

/-- C4: a SETUP failure terminates the process without entering any mode:
a configuration-load failure exits with `EXIT_CONFIG_ERROR` (5), a
database-open failure exits with a non-success code and no mode, and a
failed backend resolution exits with `EXIT_NO_BACKEND` (6). -/
theorem C4_setup_terminal_failing (modeRun : Mode → Nat) (env : SetupEnv)
    (o : RunnerOptions) :
    (env.configLoadOk = false →
      processExit modeRun env o = (EXIT_CONFIG_ERROR, none)) ∧
    (env.configLoadOk = true → env.dbOpenOk = false →
      (processExit modeRun env o).2 = none ∧
      (processExit modeRun env o).1 ≠ EXIT_SUCCESS) ∧
    (env.configLoadOk = true → env.dbOpenOk = true →
      env.backendAvailable = false →
      processExit modeRun env o = (EXIT_NO_BACKEND, none)) := by
  refine ⟨?_, ?_, ?_⟩
  · intro h
    simp [processExit, runDispatch, setup, h]
  · intro hc hd
    simp [processExit, runDispatch, setup, hc, hd, EXIT_CONFIG_ERROR,
      EXIT_SUCCESS]
  · intro hc hd hb
    simp [processExit, runDispatch, setup, hc, hd, hb, EXIT_NO_BACKEND,
      EXIT_SUCCESS]

/-- Witness for C4: each of the three setup failures at a concrete
environment, with every runner option unset. -/
theorem C4_setup_terminal_failing_witness :
    ((⟨false, true, true⟩ : SetupEnv).configLoadOk = false ∧
      processExit (fun _ => 0) ⟨false, true, true⟩ ⟨"", [], false, false, false⟩ =
        (EXIT_CONFIG_ERROR, none)) ∧
    ((⟨true, false, true⟩ : SetupEnv).configLoadOk = true ∧
      (⟨true, false, true⟩ : SetupEnv).dbOpenOk = false ∧
      (processExit (fun _ => 0) ⟨true, false, true⟩
          ⟨"", [], false, false, false⟩).2 = none ∧
      (processExit (fun _ => 0) ⟨true, false, true⟩
          ⟨"", [], false, false, false⟩).1 ≠ EXIT_SUCCESS) ∧
    (processExit (fun _ => 0) ⟨true, true, false⟩ ⟨"", [], false, false, false⟩ =
      (EXIT_NO_BACKEND, none)) :=
  ⟨⟨rfl, (C4_setup_terminal_failing (fun _ => 0) ⟨false, true, true⟩
      ⟨"", [], false, false, false⟩).1 rfl⟩,
   ⟨rfl, rfl,
    (C4_setup_terminal_failing (fun _ => 0) ⟨true, false, true⟩
      ⟨"", [], false, false, false⟩).2.1 rfl rfl⟩,
   (C4_setup_terminal_failing (fun _ => 0) ⟨true, true, false⟩
      ⟨"", [], false, false, false⟩).2.2 rfl rfl rfl⟩

/-- C5 counterexample: contrary to the claim that each failure code is
produced by exactly one failure branch of the Runner, no branch of the
Runner returns `EXIT_EXECUTION_FAILED` (4) or `EXIT_CONFIG_ERROR` (5),
and two distinct branches of the interactive loop both return
`EXIT_CANCELLED` (1). -/
theorem C5_exit_codes_counterexample :
    branchesReturning EXIT_EXECUTION_FAILED = [] ∧
    branchesReturning EXIT_CONFIG_ERROR = [] ∧
    branchesReturning EXIT_CANCELLED =
      [ExitBranch.menuEmpty, ExitBranch.menuCancelled] ∧
    ExitBranch.menuEmpty ≠ ExitBranch.menuCancelled := by
  decide

/-- C5 (amended): the seven exit codes are pairwise distinct; every
exit-producing branch of the Runner returns a code in the set;
selection-not-found, plugin-not-found and no-backend-available are each
produced by exactly one branch; user-cancelled is produced by exactly two
branches of the interactive loop (empty item list, and cancelled or null
selection); execution-failed and configuration-error are declared but
produced by no branch of the Runner. The scripted chain in particular
only ever produces 0 or 2. -/
theorem C5_exit_codes_amended :
    ([EXIT_SUCCESS, EXIT_CANCELLED, EXIT_SELECTION_NOT_FOUND,
      EXIT_PLUGIN_NOT_FOUND, EXIT_EXECUTION_FAILED, EXIT_CONFIG_ERROR,
      EXIT_NO_BACKEND] : List Nat).Pairwise (· ≠ ·) ∧
    (∀ b : ExitBranch, b ∈ allBranches) ∧
    (∀ b : ExitBranch, branchCode b ∈
      [EXIT_SUCCESS, EXIT_CANCELLED, EXIT_SELECTION_NOT_FOUND,
       EXIT_PLUGIN_NOT_FOUND, EXIT_EXECUTION_FAILED, EXIT_CONFIG_ERROR,
       EXIT_NO_BACKEND]) ∧
    branchesReturning EXIT_SELECTION_NOT_FOUND =
      [ExitBranch.selectionsNotFound] ∧
    branchesReturning EXIT_PLUGIN_NOT_FOUND =
      [ExitBranch.runPluginNotFound] ∧
    branchesReturning EXIT_NO_BACKEND = [ExitBranch.setupNoBackend] ∧
    branchesReturning EXIT_CANCELLED =
      [ExitBranch.menuEmpty, ExitBranch.menuCancelled] ∧
    branchesReturning EXIT_EXECUTION_FAILED = [] ∧
    branchesReturning EXIT_CONFIG_ERROR = [] ∧
    (∀ (find : String → Option MenuItem) (rp : String → String → Bool)
        (dry : Bool) (sels : List String),
      (runSelections find rp dry sels).exitCode = EXIT_SUCCESS ∨
      (runSelections find rp dry sels).exitCode = EXIT_SELECTION_NOT_FOUND) := by
  refine ⟨by decide, ?_, ?_, by decide, by decide, by decide, by decide,
    by decide, by decide, ?_⟩
  · intro b
    cases b <;> decide
  · intro b
    cases b <;> decide
  · intro find rp dry sels
    exact runSelections_exit_cases find rp dry sels

/-- C6: print mode renders exactly the ranked items in order, one line
each, and exits with `EXIT_SUCCESS`; a submenu item gets the configured
submenu prefix prepended, a non-empty badge is appended as
`"  (badge)"`, and an item that is neither prints its bare title. -/
theorem C6_print_mode_formatting (items : List MenuItem) (it : MenuItem)
    (sp : String) :
    printItemsMode items sp =
      (items.map (fun i => formatItem i sp), EXIT_SUCCESS) ∧
    (it.itemType = ItemType.submenu → it.badge = "" →
      formatItem it sp = sp ++ it.title) ∧
    (it.itemType ≠ ItemType.submenu → it.badge ≠ "" →
      formatItem it sp = it.title ++ "  (" ++ it.badge ++ ")") ∧
    (it.itemType = ItemType.submenu → it.badge ≠ "" →
      formatItem it sp = sp ++ it.title ++ "  (" ++ it.badge ++ ")") ∧
    (it.itemType ≠ ItemType.submenu → it.badge = "" →
      formatItem it sp = it.title) := by
  refine ⟨rfl, ?_, ?_, ?_, ?_⟩ <;> intro h1 h2 <;> simp [formatItem, h1, h2]

/-- Witness for C6: a submenu item, a badged action item, a badged submenu
item and a plain item, formatted with the default prefix. -/
theorem C6_print_mode_formatting_witness :
    formatItem ⟨"files", "Files", ItemType.submenu, "", "files"⟩ "→ " =
      "→ " ++ "Files" ∧
    formatItem ⟨"a", "Docs", ItemType.action, "3", "p"⟩ "→ " =
      "Docs" ++ "  (" ++ "3" ++ ")" ∧
    formatItem ⟨"b", "Plugins", ItemType.submenu, "2", "p"⟩ "→ " =
      "→ " ++ "Plugins" ++ "  (" ++ "2" ++ ")" ∧
    formatItem ⟨"c", "About", ItemType.info, "", ""⟩ "→ " = "About" :=
  ⟨(C6_print_mode_formatting [] ⟨"files", "Files", ItemType.submenu, "", "files"⟩
      "→ ").2.1 rfl rfl,
   (C6_print_mode_formatting [] ⟨"a", "Docs", ItemType.action, "3", "p"⟩
      "→ ").2.2.1 (by decide) (by decide),
   (C6_print_mode_formatting [] ⟨"b", "Plugins", ItemType.submenu, "2", "p"⟩
      "→ ").2.2.2.1 rfl (by decide),
   (C6_print_mode_formatting [] ⟨"c", "About", ItemType.info, "", ""⟩
      "→ ").2.2.2.2 (by decide) rfl⟩

/-- C8: uninstalling a bundled plugin ("settings" or "plugins") always
returns failure with no filesystem mutation, whatever is installed on
disk, and the plugin-options menu for those names offers exactly the Info
and display-mode toggle entries — never an Uninstall entry. -/
theorem C8_bundled_protection (fs : String → Option PathKind) (v : String)
    (m : DisplayMode) :
    uninstallPlugin fs "settings" = (UninstallOutcome.refusedBundled, []) ∧
    uninstallPlugin fs "plugins" = (UninstallOutcome.refusedBundled, []) ∧
    (pluginOptionItems "settings" v m).map MenuItem.id =
      ["plugins:opt:settings:info", "plugins:opt:settings:toggle"] ∧
    (pluginOptionItems "plugins" v m).map MenuItem.id =
      ["plugins:opt:plugins:info", "plugins:opt:plugins:toggle"] := by
  refine ⟨?_, ?_, ?_, ?_⟩
  · simp [uninstallPlugin, bundledPlugins]
  · simp [uninstallPlugin, bundledPlugins]
  · cases m <;> rfl
  · cases m <;> rfl

/-- C9: loading the configuration from a path whose file does not exist
returns the built-in defaults without raising: auto-detect backend,
submenu prefix `"→ "`, frequency tracking on, and exactly the official
plugin repository. -/
theorem C9_config_load_defaults (parsed : Except TomlError Config) :
    configLoad false parsed = Except.ok defaultConfig ∧
    defaultConfig.menu.backend = "" ∧
    defaultConfig.display.submenuPrefix = "→ " ∧
    defaultConfig.frequencyTracking = true ∧
    defaultConfig.plugins.repositories = ["markhedleyjones/menu-kit-plugins"] :=
  ⟨rfl, rfl, rfl, rfl, rfl⟩

end MenuKit
